import Mathlib

/-!
Shallow embedding of the near-real-time sync and notification-derivation
layer of the WorkTrack Portal client (src/src/App.tsx, src/src/types.ts).

The embedding translates the pure state transitions of that layer:

* the notification inbox operations `pushNotification`,
  `markAllNotificationsRead`, `openNotification` and the derived
  `unreadNotificationCount` / `selectedOrder` projections;
* the three realtime push handlers (`ordersChannelHandler`,
  `commentsChannelHandler`, `filesChannelHandler`) registered on the
  Supabase channels, acting on the session-scoped dedup state
  (`knownCommentIdsRef`, `knownFileIdsRef`, `orderStatusMapRef`);
* the periodic pull reconciliation `syncEvents`, modelled per entity
  stream and per row (`syncOrdersStep`, `syncCommentsStep`,
  `syncFilesStep`).

Ambient effects are made explicit parameters: the fresh id and timestamp
that `Date.now` provides to `pushNotification`, the row images delivered
by the event feed, and the result of the on-demand order fetch inside
`openNotification`.  Handlers return the list of `pushNotification`
call arguments they issue (`NotifCall`), so properties about which
notifications are synthesized are stated on that list, and properties
about the inbox itself are stated on `pushNotification`.
-/

namespace WorkTrack

/-- Role enum of `Profile` (src/src/types.ts). -/
inductive Role
  | admin
  | staff
  | client
deriving DecidableEq, Repr

/-- Status enum of `Order` (src/src/types.ts). -/
inductive OrderStatus
  | not_started
  | in_progress
  | on_hold
  | completed
  | cancelled
deriving DecidableEq, Repr

/-- `Profile` row (src/src/types.ts).  `created_at` plays no part in the
sync layer and is omitted. -/
structure Profile where
  id : String
  email : String
  full_name : Option String
  role : Role
deriving DecidableEq, Repr

/-- `Order` row (src/src/types.ts), restricted to the columns the sync
and notification layer reads: `id`, `order_code` (for message wording),
`status` (diffed), `client_id` (visibility gating).  The remaining
business columns are never consulted by the embedded code. -/
structure Order where
  id : String
  order_code : String
  status : OrderStatus
  client_id : Option String
deriving DecidableEq, Repr

/-- `STATUS_LABELS` (App.tsx line 54). -/
def STATUS_LABELS : OrderStatus → String
  | .not_started => "Not Started"
  | .in_progress => "In Progress"
  | .on_hold => "On Hold"
  | .completed => "Completed"
  | .cancelled => "Cancelled"

/-- `AppNotification` (App.tsx line 19). -/
structure AppNotification where
  id : String
  title : String
  message : String
  created_at : String
  read : Bool
  order_id : Option String
deriving DecidableEq, Repr

/-- `pushNotification` (App.tsx line 309): builds the item with
`read: false` and the ambient fresh id / timestamp, prepends it and
truncates with `slice(0, 50)`. -/
def pushNotification (freshId createdAt title message : String)
    (orderId : Option String) (prev : List AppNotification) :
    List AppNotification :=
  ({ id := freshId, title := title, message := message,
     created_at := createdAt, read := false, order_id := orderId } :: prev).take 50

/-- `markAllNotificationsRead` (App.tsx line 321). -/
def markAllNotificationsRead (prev : List AppNotification) :
    List AppNotification :=
  prev.map (fun item => { item with read := true })

/-- `unreadNotificationCount` (App.tsx line 246): count of entries with
`read = false`. -/
def unreadNotificationCount (notifications : List AppNotification) : Nat :=
  (notifications.filter (fun item => !item.read)).length

/-- The `selectedOrder` memo (App.tsx line 233): resolves the selected
order id against the loaded order list. -/
def selectedOrder (orders : List Order) (selectedOrderId : Option String) :
    Option Order :=
  selectedOrderId.bind (fun sid => orders.find? (fun o => o.id = sid))

/-- Result state of `openNotification` (App.tsx line 325): the updated
inbox, the updated order list, the selected order id it navigates to,
and how many on-demand order fetches were performed. -/
structure OpenNotificationResult where
  notifications : List AppNotification
  orders : List Order
  selectedOrderId : Option String
  fetchCount : Nat
deriving DecidableEq, Repr

/-- `openNotification` (App.tsx line 325).  `fetched` is the row the
single on-demand query would return (`none` when the order is no longer
retrievable); it is consulted only when the order is absent locally. -/
def openNotification (item : AppNotification) (fetched : Option Order)
    (notifications : List AppNotification) (orders : List Order)
    (selectedOrderId : Option String) : OpenNotificationResult :=
  let notifications1 :=
    notifications.map (fun n => if n.id = item.id then { n with read := true } else n)
  match item.order_id with
  | none =>
    { notifications := notifications1, orders := orders,
      selectedOrderId := selectedOrderId, fetchCount := 0 }
  | some oid =>
    if orders.any (fun o => o.id = oid) then
      { notifications := notifications1, orders := orders,
        selectedOrderId := some oid, fetchCount := 0 }
    else
      match fetched with
      | some data =>
        { notifications := notifications1,
          orders := if orders.any (fun o => o.id = data.id) then orders else data :: orders,
          selectedOrderId := some oid, fetchCount := 1 }
      | none =>
        { notifications := notifications1, orders := orders,
          selectedOrderId := some oid, fetchCount := 1 }

/-- Sample profile used to instantiate witnesses. -/
def sampleStaff : Profile :=
  { id := "staff-1", email := "staff@worktrack.test",
    full_name := some "Sam Staff", role := Role.staff }

/-- Sample client profile used to instantiate witnesses. -/
def sampleClient : Profile :=
  { id := "client-1", email := "client@worktrack.test",
    full_name := some "Cleo Client", role := Role.client }

/-- Sample already-read notification used to instantiate witnesses. -/
def sampleNotif : AppNotification :=
  { id := "n-1", title := "T", message := "M",
    created_at := "2024-01-01T00:00:00Z", read := true, order_id := none }

/-- C7: `pushNotification` prepends the new entry (read flag false) and
truncates to the 50 most-recent, so the inbox never exceeds 50 entries;
from a full inbox of 50 it drops exactly the oldest entry (the last one)
and keeps the relative order of the rest. -/
theorem c7_push_caps_inbox (freshId createdAt title message : String)
    (orderId : Option String) (prev prev50 : List AppNotification)
    (h50 : prev50.length = 50) :
    (pushNotification freshId createdAt title message orderId prev).length ≤ 50 ∧
    pushNotification freshId createdAt title message orderId prev =
      { id := freshId, title := title, message := message,
        created_at := createdAt, read := false, order_id := orderId } :: prev.take 49 ∧
    pushNotification freshId createdAt title message orderId prev50 =
      { id := freshId, title := title, message := message,
        created_at := createdAt, read := false, order_id := orderId } :: prev50.dropLast := by
  refine ⟨?_, ?_, ?_⟩
  · simp [pushNotification]
  · simp [pushNotification, List.take_succ_cons]
  · have hdl : prev50.dropLast = prev50.take 49 := by
      simp [List.dropLast_eq_take, h50]
    simp [pushNotification, List.take_succ_cons, hdl]

/-- C7 witness: concrete instantiation on the empty inbox and a full
inbox of 50 entries. -/
theorem c7_push_caps_inbox_witness :
    (List.replicate 50 sampleNotif).length = 50 ∧
    ((pushNotification "f-1" "t-1" "Ti" "Me" none []).length ≤ 50 ∧
     pushNotification "f-1" "t-1" "Ti" "Me" none [] =
       { id := "f-1", title := "Ti", message := "Me",
         created_at := "t-1", read := false, order_id := none } :: ([] : List AppNotification).take 49 ∧
     pushNotification "f-1" "t-1" "Ti" "Me" none (List.replicate 50 sampleNotif) =
       { id := "f-1", title := "Ti", message := "Me",
         created_at := "t-1", read := false, order_id := none } ::
         (List.replicate 50 sampleNotif).dropLast) :=
  ⟨by simp, c7_push_caps_inbox "f-1" "t-1" "Ti" "Me" none []
      (List.replicate 50 sampleNotif) (by simp)⟩

/-- C9: `markAllNotificationsRead` marks every entry read and is
idempotent. -/
theorem c9_mark_all_read (prev : List AppNotification) :
    (markAllNotificationsRead prev).all (fun item => item.read) = true ∧
    markAllNotificationsRead (markAllNotificationsRead prev) =
      markAllNotificationsRead prev := by
  constructor
  · simp [markAllNotificationsRead, List.all_eq_true]
  · simp [markAllNotificationsRead]

/-- C10: a pushed notification enters the inbox with read flag false,
the retained pre-existing entries are unchanged, and whenever every
entry the truncation evicts was already read, the unread count grows by
exactly one. -/
theorem c10_unread_increment (freshId createdAt title message : String)
    (orderId : Option String) (prev : List AppNotification)
    (hevict : (prev.drop 49).all (fun item => item.read) = true) :
    (pushNotification freshId createdAt title message orderId prev).head? =
      some { id := freshId, title := title, message := message,
             created_at := createdAt, read := false, order_id := orderId } ∧
    (pushNotification freshId createdAt title message orderId prev).tail =
      prev.take 49 ∧
    unreadNotificationCount (pushNotification freshId createdAt title message orderId prev) =
      unreadNotificationCount prev + 1 := by
  have hpush : pushNotification freshId createdAt title message orderId prev =
      { id := freshId, title := title, message := message,
        created_at := createdAt, read := false, order_id := orderId } :: prev.take 49 := by
    simp [pushNotification, List.take_succ_cons]
  refine ⟨by simp [hpush], by simp [hpush], ?_⟩
  have hsplit : prev = prev.take 49 ++ prev.drop 49 := (List.take_append_drop 49 prev).symm
  have hdropzero : unreadNotificationCount (prev.drop 49) = 0 := by
    unfold unreadNotificationCount
    rw [List.length_eq_zero, List.filter_eq_nil_iff]
    intro a ha
    have := (List.all_eq_true.mp hevict) a ha
    simpa using this
  have hprev : unreadNotificationCount prev =
      unreadNotificationCount (prev.take 49) := by
    conv_lhs => rw [hsplit]
    unfold unreadNotificationCount
    rw [List.filter_append, List.length_append]
    have : ((prev.drop 49).filter (fun item => !item.read)).length = 0 := hdropzero
    omega
  rw [hpush, hprev]
  simp [unreadNotificationCount, List.filter_cons]

/-- C10 witness: concrete instantiation on a one-entry inbox holding an
unread entry. -/
theorem c10_unread_increment_witness :
    (([sampleNotif].drop 49).all (fun item => item.read) = true) ∧
    ((pushNotification "f-2" "t-2" "Ti" "Me" none [sampleNotif]).head? =
      some { id := "f-2", title := "Ti", message := "Me",
             created_at := "t-2", read := false, order_id := none } ∧
     (pushNotification "f-2" "t-2" "Ti" "Me" none [sampleNotif]).tail =
       [sampleNotif].take 49 ∧
     unreadNotificationCount (pushNotification "f-2" "t-2" "Ti" "Me" none [sampleNotif]) =
       unreadNotificationCount [sampleNotif] + 1) :=
  ⟨by decide, c10_unread_increment "f-2" "t-2" "Ti" "Me" none [sampleNotif] (by decide)⟩

/-! ## Session-scoped sync state and shared helpers -/

/-- Lookup in `orderStatusMapRef` (a JS `Map` keyed by order id):
`map.get(id)` returns the value of the first (unique) matching key. -/
def statusMapGet : List (String × OrderStatus) → String → Option OrderStatus
  | [], _ => none
  | p :: rest, k => if p.1 = k then some p.2 else statusMapGet rest k

/-- `map.set(id, status)` on `orderStatusMapRef`: replaces the entry for
an existing key in place, otherwise appends the new entry. -/
def statusMapSet : List (String × OrderStatus) → String → OrderStatus →
    List (String × OrderStatus)
  | [], k, v => [(k, v)]
  | p :: rest, k, v =>
    if p.1 = k then (k, v) :: rest else p :: statusMapSet rest k v

/-- `profilesByIdRef.current.get(id)`: the map is built from the profile
list keyed by the (unique) profile id. -/
def profilesByIdGet (profiles : List Profile) (k : String) : Option Profile :=
  profiles.find? (fun p => p.id = k)

/-- `author.full_name || author.email` (App.tsx line 812): JS `||`
falls through on `null` and on the empty string. -/
def profileDisplayName (p : Profile) : String :=
  match p.full_name with
  | some n => if n = "" then p.email else n
  | none => p.email

/-- `getOrderCode` (App.tsx line 345): resolve the human-readable code
from the loaded order list, falling back to the first 8 characters of
the id. -/
def getOrderCode (ordersList : List Order) (orderId : String) : String :=
  match ordersList.find? (fun o => o.id = orderId) with
  | some found => found.order_code
  | none => orderId.take 8

/-- The `isClientOwn` visibility gate, inlined identically at App.tsx
lines 780 and 898: a client-role viewer only qualifies for a status
notification when the order belongs to them; staff and admin always
qualify. -/
def isClientOwn (profile : Profile) (client_id : Option String) : Bool :=
  if profile.role = Role.client then decide (client_id = some profile.id) else true

/-- The argument triple of a `pushNotification` call issued by a sync
handler (every handler call site passes an order id). -/
structure NotifCall where
  title : String
  message : String
  order_id : String
deriving DecidableEq, Repr

/-! ## Realtime push handlers (the three Supabase channels) -/

/-- Event type tag of a `postgres_changes` payload. -/
inductive PgEventType
  | INSERT
  | UPDATE
  | DELETE
deriving DecidableEq, Repr

/-- `payload.old` / `payload.new` as `Partial<Order>` (App.tsx lines
775-776): every field the handler reads may be absent. -/
structure OrderRowImage where
  id : Option String
  status : Option OrderStatus
  client_id : Option String
deriving DecidableEq, Repr

/-- A `postgres_changes` payload on the `orders` channel. -/
structure OrderChangePayload where
  eventType : PgEventType
  oldRow : OrderRowImage
  newRow : OrderRowImage
deriving DecidableEq, Repr

/-- The `ordersChannel` callback (App.tsx lines 771-797), restricted to
its effect on `orderStatusMapRef` and the `pushNotification` calls it
issues.  The `loadOrders` / `loadOrderDetails` refreshes it also fires
are network reloads that do not touch the dedup or notification state
and are outside this model. -/
def ordersChannelHandler (profile : Profile) (ordersList : List Order)
    (statusMap : List (String × OrderStatus)) (payload : OrderChangePayload) :
    List (String × OrderStatus) × List NotifCall :=
  if payload.eventType = PgEventType.UPDATE ∨ payload.eventType = PgEventType.INSERT then
    match payload.newRow.id, payload.newRow.status with
    | some rowId, some rowStatus =>
      let previousStatus := (statusMapGet statusMap rowId).or payload.oldRow.status
      let notes : List NotifCall :=
        match previousStatus with
        | some prev =>
          if prev ≠ rowStatus then
            if isClientOwn profile payload.newRow.client_id then
              [{ title := "Order Status Changed",
                 message := getOrderCode ordersList rowId ++ " moved from " ++
                   STATUS_LABELS prev ++ " to " ++ STATUS_LABELS rowStatus,
                 order_id := rowId }]
            else []
          else []
        | none => []
      (statusMapSet statusMap rowId rowStatus, notes)
    | _, _ => (statusMap, [])
  else (statusMap, [])

/-- `payload.new` as `Partial<Comment>` (App.tsx line 802). -/
structure CommentRowImage where
  id : Option String
  order_id : Option String
  author_id : Option String
deriving DecidableEq, Repr

/-- The `commentsChannel` INSERT callback (App.tsx lines 799-823):
drops rows with a missing id or order reference, dedups against
`knownCommentIdsRef` (recording the id first), skips self-authored
comments, then synthesizes either the staff-facing "Client Message"
notification or the generic "New Comment" one. -/
def commentsChannelHandler (profile : Profile) (profiles : List Profile)
    (ordersList : List Order) (knownCommentIds : List String)
    (row : CommentRowImage) : List String × List NotifCall :=
  match row.order_id, row.id with
  | some orderId, some rowId =>
    if rowId ∈ knownCommentIds then (knownCommentIds, [])
    else
      let known1 := knownCommentIds ++ [rowId]
      if row.author_id = some profile.id then (known1, [])
      else
        match row.author_id.bind (profilesByIdGet profiles) with
        | some author =>
          if profile.role ≠ Role.client ∧ author.role = Role.client then
            (known1, [{ title := "Client Message",
                        message := profileDisplayName author ++ " sent a comment on " ++
                          getOrderCode ordersList orderId,
                        order_id := orderId }])
          else
            (known1, [{ title := "New Comment",
                        message := "New comment added on " ++ getOrderCode ordersList orderId,
                        order_id := orderId }])
        | none =>
          (known1, [{ title := "New Comment",
                      message := "New comment added on " ++ getOrderCode ordersList orderId,
                      order_id := orderId }])
  | _, _ => (knownCommentIds, [])

/-- `payload.new` as `Partial<OrderFile>` (App.tsx line 828). -/
structure FileRowImage where
  id : Option String
  order_id : Option String
  uploaded_by : Option String
  file_name : Option String
deriving DecidableEq, Repr

/-- The `filesChannel` INSERT callback (App.tsx lines 825-842): same
dedup and self-actor skip as comments, then the "New File Uploaded"
notification. -/
def filesChannelHandler (profile : Profile) (ordersList : List Order)
    (knownFileIds : List String) (row : FileRowImage) :
    List String × List NotifCall :=
  match row.order_id, row.id with
  | some orderId, some rowId =>
    if rowId ∈ knownFileIds then (knownFileIds, [])
    else
      let known1 := knownFileIds ++ [rowId]
      if row.uploaded_by = some profile.id then (known1, [])
      else
        (known1, [{ title := "New File Uploaded",
                    message := (row.file_name.getD "A file") ++ " was uploaded to " ++
                      getOrderCode ordersList orderId,
                    order_id := orderId }])
  | _, _ => (knownFileIds, [])

/-! ## Periodic pull reconciliation (`syncEvents`, App.tsx lines 873-940) -/

/-- A row of the `syncEvents` orders query (`select id,status,client_id`). -/
structure OrderPullRow where
  id : String
  status : OrderStatus
  client_id : Option String
deriving DecidableEq, Repr

/-- One iteration of the orders `forEach` in `syncEvents` (App.tsx
lines 894-908): diff against the status map, gate visibility, then
unconditionally record the new status as the terminal step. -/
def syncOrdersStep (profile : Profile) (ordersList : List Order)
    (statusMap : List (String × OrderStatus)) (row : OrderPullRow) :
    List (String × OrderStatus) × List NotifCall :=
  let nextStatus := row.status
  let notes : List NotifCall :=
    match statusMapGet statusMap row.id with
    | some prev =>
      if prev ≠ nextStatus then
        if isClientOwn profile row.client_id then
          [{ title := "Order Status Changed",
             message := getOrderCode ordersList row.id ++ " moved from " ++
               STATUS_LABELS prev ++ " to " ++ STATUS_LABELS nextStatus,
             order_id := row.id }]
        else []
      else []
    | none => []
  (statusMapSet statusMap row.id nextStatus, notes)

/-- A row of the `syncEvents` comments query
(`select id,order_id,author_id,created_at`). -/
structure CommentPullRow where
  id : String
  order_id : String
  author_id : Option String
  created_at : String
deriving DecidableEq, Repr

/-- One iteration of the comments `forEach` in `syncEvents` (App.tsx
lines 911-922), acting on the pair of `knownCommentIdsRef` and the
`lastCommentSeenAtRef` cursor. -/
def syncCommentsStep (profile : Profile) (ordersList : List Order)
    (st : List String × String) (item : CommentPullRow) :
    (List String × String) × List NotifCall :=
  if item.id ∈ st.1 then (st, [])
  else
    let known1 := st.1 ++ [item.id]
    let notes : List NotifCall :=
      if item.author_id ≠ some profile.id then
        [{ title := "New Comment",
           message := "New comment added on " ++ getOrderCode ordersList item.order_id,
           order_id := item.order_id }]
      else []
    let seen1 := if item.created_at ≠ "" ∧ st.2 < item.created_at then item.created_at else st.2
    ((known1, seen1), notes)

/-- A row of the `syncEvents` files query
(`select id,order_id,uploaded_by,file_name,created_at`). -/
structure FilePullRow where
  id : String
  order_id : String
  uploaded_by : Option String
  file_name : Option String
  created_at : String
deriving DecidableEq, Repr

/-- One iteration of the files `forEach` in `syncEvents` (App.tsx lines
924-939). -/
def syncFilesStep (profile : Profile) (ordersList : List Order)
    (st : List String × String) (item : FilePullRow) :
    (List String × String) × List NotifCall :=
  if item.id ∈ st.1 then (st, [])
  else
    let known1 := st.1 ++ [item.id]
    let notes : List NotifCall :=
      if item.uploaded_by ≠ some profile.id then
        [{ title := "New File Uploaded",
           message := (item.file_name.getD "A file") ++ " was uploaded to " ++
             getOrderCode ordersList item.order_id,
           order_id := item.order_id }]
      else []
    let seen1 := if item.created_at ≠ "" ∧ st.2 < item.created_at then item.created_at else st.2
    ((known1, seen1), notes)

/-! ## Status map lemmas -/

theorem statusMapGet_set_self (m : List (String × OrderStatus)) (k : String)
    (v : OrderStatus) : statusMapGet (statusMapSet m k v) k = some v := by
  induction m with
  | nil => simp [statusMapSet, statusMapGet]
  | cons p rest ih =>
    by_cases h : p.1 = k
    · simp [statusMapSet, statusMapGet, h]
    · simp [statusMapSet, statusMapGet, h, ih]

theorem isClientOwn_of_not_client {p : Profile} (h : p.role ≠ Role.client)
    (c : Option String) : isClientOwn p c = true := by
  simp [isClientOwn, h]

theorem isClientOwn_of_client {p : Profile} (h : p.role = Role.client)
    (c : Option String) : isClientOwn p c = decide (c = some p.id) := by
  simp [isClientOwn, h]

/-- The status note a transition of order `oid` from `s1` to `s2`
produces (shared shape of the push and pull call sites). -/
def statusNote (ordersList : List Order) (oid : String) (s1 s2 : OrderStatus) :
    NotifCall :=
  { title := "Order Status Changed",
    message := getOrderCode ordersList oid ++ " moved from " ++
      STATUS_LABELS s1 ++ " to " ++ STATUS_LABELS s2,
    order_id := oid }

/-- Characterization of the push handler on a detected transition:
the map already holds `s1` and the new row reports `s2 ≠ s1`. -/
theorem ordersChannelHandler_transition (profile : Profile)
    (ordersList : List Order) (m : List (String × OrderStatus))
    (payload : OrderChangePayload) (oid : String) (s1 s2 : OrderStatus)
    (hev : payload.eventType = PgEventType.UPDATE ∨ payload.eventType = PgEventType.INSERT)
    (hid : payload.newRow.id = some oid) (hst : payload.newRow.status = some s2)
    (hprior : statusMapGet m oid = some s1) (hne : s1 ≠ s2) :
    ordersChannelHandler profile ordersList m payload =
      (statusMapSet m oid s2,
       if isClientOwn profile payload.newRow.client_id then
         [statusNote ordersList oid s1 s2]
       else []) := by
  unfold ordersChannelHandler
  rw [if_pos hev, hid, hst]
  simp [hprior, Option.or, hne, statusNote]

/-- Characterization of the push handler when the reported status agrees
with the map: no notification, map rewritten to the same value. -/
theorem ordersChannelHandler_same (profile : Profile)
    (ordersList : List Order) (m : List (String × OrderStatus))
    (payload : OrderChangePayload) (oid : String) (s2 : OrderStatus)
    (hev : payload.eventType = PgEventType.UPDATE ∨ payload.eventType = PgEventType.INSERT)
    (hid : payload.newRow.id = some oid) (hst : payload.newRow.status = some s2)
    (hprior : statusMapGet m oid = some s2) :
    ordersChannelHandler profile ordersList m payload = (statusMapSet m oid s2, []) := by
  unfold ordersChannelHandler
  rw [if_pos hev, hid, hst]
  simp [hprior, Option.or]

/-- Characterization of the pull step on a detected transition. -/
theorem syncOrdersStep_transition (profile : Profile) (ordersList : List Order)
    (m : List (String × OrderStatus)) (row : OrderPullRow) (s1 : OrderStatus)
    (hprior : statusMapGet m row.id = some s1) (hne : s1 ≠ row.status) :
    syncOrdersStep profile ordersList m row =
      (statusMapSet m row.id row.status,
       if isClientOwn profile row.client_id then
         [statusNote ordersList row.id s1 row.status]
       else []) := by
  unfold syncOrdersStep
  simp [hprior, hne, statusNote]

/-- Characterization of the pull step when the reported status agrees
with the map. -/
theorem syncOrdersStep_same (profile : Profile) (ordersList : List Order)
    (m : List (String × OrderStatus)) (row : OrderPullRow)
    (hprior : statusMapGet m row.id = some row.status) :
    syncOrdersStep profile ordersList m row = (statusMapSet m row.id row.status, []) := by
  unfold syncOrdersStep
  simp [hprior]

/-- C3 counterexample: the claim also covers the push path, but there
the handler falls back to the old row image when the map holds no entry
(`orderStatusMapRef.current.get(newRow.id) ?? oldRow.status`, App.tsx
line 778).  A push UPDATE whose old row carries a different status
synthesizes a transition notification even though the status map held
no prior entry for the order. -/
theorem c3_counterexample :
    statusMapGet [] "order-1" = none ∧
    (ordersChannelHandler sampleStaff [] []
      { eventType := PgEventType.UPDATE,
        oldRow := { id := some "order-1", status := some OrderStatus.not_started,
                    client_id := none },
        newRow := { id := some "order-1", status := some OrderStatus.completed,
                    client_id := none } }).2 =
      [{ title := "Order Status Changed",
         message := "order-1 moved from Not Started to Completed",
         order_id := "order-1" }] := by
  exact ⟨rfl, by decide⟩

/-- C3 (amended): an order observed with no prior status map entry
synthesizes no transition notification and leaves the map holding the
observed status — on the pull path always, and on the push path
provided the old row image of the payload carries no status.  (When the
old row does carry a different status the push handler falls back to it
and notifies; see the counterexample.) -/
theorem c3_new_order_no_notification (profile : Profile)
    (ordersList : List Order) (m m2 : List (String × OrderStatus))
    (row : OrderPullRow) (payload : OrderChangePayload) (oid : String)
    (s2 : OrderStatus)
    (hpull : statusMapGet m row.id = none)
    (hev : payload.eventType = PgEventType.UPDATE ∨ payload.eventType = PgEventType.INSERT)
    (hid : payload.newRow.id = some oid)
    (hst : payload.newRow.status = some s2)
    (hpush : statusMapGet m2 oid = none)
    (hold : payload.oldRow.status = none) :
    (syncOrdersStep profile ordersList m row).2 = [] ∧
    statusMapGet (syncOrdersStep profile ordersList m row).1 row.id = some row.status ∧
    (ordersChannelHandler profile ordersList m2 payload).2 = [] ∧
    statusMapGet (ordersChannelHandler profile ordersList m2 payload).1 oid = some s2 := by
  have hpushEq : ordersChannelHandler profile ordersList m2 payload =
      (statusMapSet m2 oid s2, []) := by
    unfold ordersChannelHandler
    rw [if_pos hev, hid, hst]
    simp [hpush, hold, Option.or]
  refine ⟨?_, ?_, ?_, ?_⟩
  · simp [syncOrdersStep, hpull]
  · simp [syncOrdersStep, statusMapGet_set_self]
  · rw [hpushEq]
  · rw [hpushEq]
    exact statusMapGet_set_self m2 oid s2

/-- C3 amended witness: a fresh session map observing order o-2 with
status completed via both paths. -/
theorem c3_new_order_no_notification_witness :
    statusMapGet [] "o-2" = none ∧
    ((PgEventType.INSERT = PgEventType.UPDATE ∨ PgEventType.INSERT = PgEventType.INSERT) ∧
     ({ id := some "o-2", status := some OrderStatus.completed, client_id := none } : OrderRowImage).id = some "o-2" ∧
     ({ id := some "o-2", status := some OrderStatus.completed, client_id := none } : OrderRowImage).status = some OrderStatus.completed ∧
     ({ id := none, status := none, client_id := none } : OrderRowImage).status = none) ∧
    ((syncOrdersStep sampleStaff [] []
        { id := "o-2", status := OrderStatus.completed, client_id := none }).2 = [] ∧
     statusMapGet (syncOrdersStep sampleStaff [] []
        { id := "o-2", status := OrderStatus.completed, client_id := none }).1 "o-2" =
       some OrderStatus.completed ∧
     (ordersChannelHandler sampleStaff [] []
        { eventType := PgEventType.INSERT,
          oldRow := { id := none, status := none, client_id := none },
          newRow := { id := some "o-2", status := some OrderStatus.completed,
                      client_id := none } }).2 = [] ∧
     statusMapGet (ordersChannelHandler sampleStaff [] []
        { eventType := PgEventType.INSERT,
          oldRow := { id := none, status := none, client_id := none },
          newRow := { id := some "o-2", status := some OrderStatus.completed,
                      client_id := none } }).1 "o-2" = some OrderStatus.completed) := by
  refine ⟨rfl, ⟨Or.inr rfl, rfl, rfl, rfl⟩, ?_⟩
  have h := c3_new_order_no_notification sampleStaff [] [] []
    { id := "o-2", status := OrderStatus.completed, client_id := none }
    { eventType := PgEventType.INSERT,
      oldRow := { id := none, status := none, client_id := none },
      newRow := { id := some "o-2", status := some OrderStatus.completed,
                  client_id := none } }
    "o-2" OrderStatus.completed rfl (Or.inr rfl) rfl rfl rfl rfl
  exact ⟨h.1, h.2.1, h.2.2.1, h.2.2.2⟩

/-- C4: for a detected status transition (prior status recorded and
different from the new one), a staff or admin viewer always receives
the notification, and a client viewer receives it exactly when the
order belongs to them — on both the push and the pull path. -/
theorem c4_visibility_gating (vs vc : Profile) (ordersList : List Order)
    (m m2 : List (String × OrderStatus)) (payload : OrderChangePayload)
    (row : OrderPullRow) (oid : String) (s1 s2 t1 : OrderStatus)
    (hvs : vs.role ≠ Role.client) (hvc : vc.role = Role.client)
    (hev : payload.eventType = PgEventType.UPDATE ∨ payload.eventType = PgEventType.INSERT)
    (hid : payload.newRow.id = some oid) (hst : payload.newRow.status = some s2)
    (hprior : statusMapGet m oid = some s1) (hne : s1 ≠ s2)
    (hprior2 : statusMapGet m2 row.id = some t1) (hne2 : t1 ≠ row.status) :
    (ordersChannelHandler vs ordersList m payload).2.length = 1 ∧
    (syncOrdersStep vs ordersList m2 row).2.length = 1 ∧
    (ordersChannelHandler vc ordersList m payload).2.length =
      (if payload.newRow.client_id = some vc.id then 1 else 0) ∧
    (syncOrdersStep vc ordersList m2 row).2.length =
      (if row.client_id = some vc.id then 1 else 0) := by
  refine ⟨?_, ?_, ?_, ?_⟩
  · rw [ordersChannelHandler_transition vs ordersList m payload oid s1 s2
      hev hid hst hprior hne]
    simp [isClientOwn_of_not_client hvs]
  · rw [syncOrdersStep_transition vs ordersList m2 row t1 hprior2 hne2]
    simp [isClientOwn_of_not_client hvs]
  · rw [ordersChannelHandler_transition vc ordersList m payload oid s1 s2
      hev hid hst hprior hne]
    rw [isClientOwn_of_client hvc]
    by_cases h : payload.newRow.client_id = some vc.id <;> simp [h]
  · rw [syncOrdersStep_transition vc ordersList m2 row t1 hprior2 hne2]
    rw [isClientOwn_of_client hvc]
    by_cases h : row.client_id = some vc.id <;> simp [h]

/-- C4 witness: staff viewer and client viewer observing a transition of
an order owned by the client viewer. -/
theorem c4_visibility_gating_witness :
    sampleStaff.role ≠ Role.client ∧
    sampleClient.role = Role.client ∧
    (PgEventType.UPDATE = PgEventType.UPDATE ∨ PgEventType.UPDATE = PgEventType.INSERT) ∧
    statusMapGet [("o-3", OrderStatus.not_started)] "o-3" = some OrderStatus.not_started ∧
    OrderStatus.not_started ≠ OrderStatus.in_progress ∧
    ((ordersChannelHandler sampleStaff []
        [("o-3", OrderStatus.not_started)]
        { eventType := PgEventType.UPDATE,
          oldRow := { id := none, status := none, client_id := none },
          newRow := { id := some "o-3", status := some OrderStatus.in_progress,
                      client_id := some "client-1" } }).2.length = 1 ∧
     (syncOrdersStep sampleStaff [] [("o-3", OrderStatus.not_started)]
        { id := "o-3", status := OrderStatus.in_progress,
          client_id := some "client-1" }).2.length = 1 ∧
     (ordersChannelHandler sampleClient []
        [("o-3", OrderStatus.not_started)]
        { eventType := PgEventType.UPDATE,
          oldRow := { id := none, status := none, client_id := none },
          newRow := { id := some "o-3", status := some OrderStatus.in_progress,
                      client_id := some "client-1" } }).2.length =
       (if (some "client-1" : Option String) = some sampleClient.id then 1 else 0) ∧
     (syncOrdersStep sampleClient [] [("o-3", OrderStatus.not_started)]
        { id := "o-3", status := OrderStatus.in_progress,
          client_id := some "client-1" }).2.length =
       (if (some "client-1" : Option String) = some sampleClient.id then 1 else 0)) := by
  refine ⟨by decide, rfl, Or.inl rfl, by decide, by decide, ?_⟩
  exact c4_visibility_gating sampleStaff sampleClient []
    [("o-3", OrderStatus.not_started)] [("o-3", OrderStatus.not_started)]
    { eventType := PgEventType.UPDATE,
      oldRow := { id := none, status := none, client_id := none },
      newRow := { id := some "o-3", status := some OrderStatus.in_progress,
                  client_id := some "client-1" } }
    { id := "o-3", status := OrderStatus.in_progress, client_id := some "client-1" }
    "o-3" OrderStatus.not_started OrderStatus.in_progress OrderStatus.not_started
    (by decide) rfl (Or.inl rfl) rfl rfl (by decide) (by decide) (by decide) (by decide)

/-- Second sample client profile used to instantiate witnesses. -/
def sampleClient2 : Profile :=
  { id := "client-2", email := "client2@worktrack.test",
    full_name := some "Chris Client", role := Role.client }

/-- Sample profile list used to instantiate witnesses. -/
def sampleProfiles : List Profile := [sampleStaff, sampleClient, sampleClient2]

/-- C5 counterexample: the claim requires every non-skipped new-comment
event with a staff/admin viewer and a client author to carry the title
"Client Message", but the pull path (`syncEvents`, App.tsx line 916)
always synthesizes the generic "New Comment" notification, even when the
viewer is staff and the author is a client known to the profile cache. -/
theorem c5_counterexample :
    sampleStaff.role = Role.staff ∧
    profilesByIdGet sampleProfiles "client-1" = some sampleClient ∧
    sampleClient.role = Role.client ∧
    (syncCommentsStep sampleStaff [] ([], "")
      { id := "c-1", order_id := "o-1", author_id := some "client-1",
        created_at := "2024-01-02T00:00:00Z" }).2 =
      [{ title := "New Comment", message := "New comment added on o-1",
         order_id := "o-1" }] := by
  decide

/-- Second sample staff profile used to instantiate witnesses. -/
def sampleStaff2 : Profile :=
  { id := "staff-2", email := "staff2@worktrack.test",
    full_name := some "Sidney Staff", role := Role.staff }

/-- Sample profile list containing two staff and two client profiles,
used to instantiate witnesses. -/
def sampleProfiles2 : List Profile :=
  [sampleStaff, sampleStaff2, sampleClient, sampleClient2]

/-- C5 (amended): for a non-skipped new-comment event, on the push
path: a staff/admin viewer whose profile cache resolves the author to a
client-role profile gets the "Client Message" notification naming the
author; a staff/admin viewer whose author does not resolve to a
client-role profile (another staff member, or an author missing from
the cache) gets the generic "New Comment" notification; and a
client-role viewer gets the generic "New Comment" notification whoever
the author is.  On the pull path every non-skipped comment event yields
the generic "New Comment" notification for every viewer, regardless of
the author.  Hence a client-role viewer never receives a "Client
Message" notification and never sees another user in the message. -/
theorem c5_comment_wording (v vStaff vClient : Profile)
    (profiles : List Profile) (ordersList : List Order)
    (knownA knownB knownC pKnown : List String) (pSeen : String)
    (rowA rowB rowC : CommentRowImage) (item : CommentPullRow) (a : Profile)
    (oidA cidA oidB cidB oidC cidC : String)
    (hS : vStaff.role ≠ Role.client) (hC : vClient.role = Role.client)
    (hoidA : rowA.order_id = some oidA) (hcidA : rowA.id = some cidA)
    (hnotKnownA : cidA ∉ knownA)
    (hskipA : rowA.author_id ≠ some vStaff.id)
    (hauth : rowA.author_id.bind (profilesByIdGet profiles) = some a)
    (haRole : a.role = Role.client)
    (hoidC : rowC.order_id = some oidC) (hcidC : rowC.id = some cidC)
    (hnotKnownC : cidC ∉ knownC)
    (hskipC : rowC.author_id ≠ some vStaff.id)
    (hother : (rowC.author_id.bind (profilesByIdGet profiles)).all
      (fun p => decide (p.role ≠ Role.client)) = true)
    (hoidB : rowB.order_id = some oidB) (hcidB : rowB.id = some cidB)
    (hnotKnownB : cidB ∉ knownB)
    (hskipB : rowB.author_id ≠ some vClient.id)
    (hpNotKnown : item.id ∉ pKnown)
    (hpSkip : item.author_id ≠ some v.id) :
    (commentsChannelHandler vStaff profiles ordersList knownA rowA).2 =
      [{ title := "Client Message",
         message := profileDisplayName a ++ " sent a comment on " ++
           getOrderCode ordersList oidA,
         order_id := oidA }] ∧
    (commentsChannelHandler vStaff profiles ordersList knownC rowC).2 =
      [{ title := "New Comment",
         message := "New comment added on " ++ getOrderCode ordersList oidC,
         order_id := oidC }] ∧
    (commentsChannelHandler vClient profiles ordersList knownB rowB).2 =
      [{ title := "New Comment",
         message := "New comment added on " ++ getOrderCode ordersList oidB,
         order_id := oidB }] ∧
    (syncCommentsStep v ordersList (pKnown, pSeen) item).2 =
      [{ title := "New Comment",
         message := "New comment added on " ++ getOrderCode ordersList item.order_id,
         order_id := item.order_id }] := by
  refine ⟨?_, ?_, ?_, ?_⟩
  · simp [commentsChannelHandler, hoidA, hcidA, hnotKnownA, hskipA, hauth, hS, haRole]
  · cases hres : rowC.author_id.bind (profilesByIdGet profiles) with
    | none =>
      simp [commentsChannelHandler, hoidC, hcidC, hnotKnownC, hskipC, hres]
    | some a2 =>
      rw [hres] at hother
      have ha2 : a2.role ≠ Role.client := by simpa using hother
      simp [commentsChannelHandler, hoidC, hcidC, hnotKnownC, hskipC, hres, ha2]
  · cases hres : rowB.author_id.bind (profilesByIdGet profiles) with
    | none =>
      simp [commentsChannelHandler, hoidB, hcidB, hnotKnownB, hskipB, hres]
    | some a2 =>
      simp [commentsChannelHandler, hoidB, hcidB, hnotKnownB, hskipB, hres, hC]
  · simp [syncCommentsStep, hpNotKnown, hpSkip]

/-- C5 amended witness: a client-authored comment pushed to the staff
viewer, a staff-authored comment pushed to the staff viewer, a
staff-authored comment pushed to the client viewer, and a pull-path
comment for the staff viewer. -/
theorem c5_comment_wording_witness :
    (sampleStaff.role ≠ Role.client ∧ sampleClient.role = Role.client ∧
     ({ id := some "c-2", order_id := some "o-4",
        author_id := some "client-2" } : CommentRowImage).order_id = some "o-4" ∧
     ({ id := some "c-2", order_id := some "o-4",
        author_id := some "client-2" } : CommentRowImage).id = some "c-2" ∧
     "c-2" ∉ ([] : List String) ∧
     (some "client-2" : Option String).bind (profilesByIdGet sampleProfiles2) =
       some sampleClient2 ∧
     sampleClient2.role = Role.client ∧
     ({ id := some "c-6", order_id := some "o-4",
        author_id := some "staff-2" } : CommentRowImage).id = some "c-6" ∧
     "c-6" ∉ ([] : List String) ∧
     ((some "staff-2" : Option String).bind (profilesByIdGet sampleProfiles2)).all
       (fun p => decide (p.role ≠ Role.client)) = true ∧
     ({ id := some "c-7", order_id := some "o-4",
        author_id := some "staff-2" } : CommentRowImage).id = some "c-7" ∧
     "c-7" ∉ ([] : List String) ∧
     "c-3" ∉ ([] : List String)) ∧
    ((commentsChannelHandler sampleStaff sampleProfiles2 [] []
        { id := some "c-2", order_id := some "o-4", author_id := some "client-2" }).2 =
      [{ title := "Client Message",
         message := profileDisplayName sampleClient2 ++ " sent a comment on " ++
           getOrderCode [] "o-4",
         order_id := "o-4" }] ∧
     (commentsChannelHandler sampleStaff sampleProfiles2 [] []
        { id := some "c-6", order_id := some "o-4", author_id := some "staff-2" }).2 =
      [{ title := "New Comment",
         message := "New comment added on " ++ getOrderCode [] "o-4",
         order_id := "o-4" }] ∧
     (commentsChannelHandler sampleClient sampleProfiles2 [] []
        { id := some "c-7", order_id := some "o-4", author_id := some "staff-2" }).2 =
      [{ title := "New Comment",
         message := "New comment added on " ++ getOrderCode [] "o-4",
         order_id := "o-4" }] ∧
     (syncCommentsStep sampleStaff [] ([], "")
        { id := "c-3", order_id := "o-4", author_id := some "client-1",
          created_at := "2024-01-03T00:00:00Z" }).2 =
      [{ title := "New Comment",
         message := "New comment added on " ++ getOrderCode [] "o-4",
         order_id := "o-4" }]) :=
  ⟨by decide,
   c5_comment_wording sampleStaff sampleStaff sampleClient sampleProfiles2 []
     [] [] [] [] ""
     { id := some "c-2", order_id := some "o-4", author_id := some "client-2" }
     { id := some "c-7", order_id := some "o-4", author_id := some "staff-2" }
     { id := some "c-6", order_id := some "o-4", author_id := some "staff-2" }
     { id := "c-3", order_id := "o-4", author_id := some "client-1",
       created_at := "2024-01-03T00:00:00Z" }
     sampleClient2 "o-4" "c-2" "o-4" "c-7" "o-4" "c-6"
     (by decide) rfl rfl rfl (by decide) (by decide) rfl rfl
     rfl rfl (by decide) (by decide) (by decide)
     rfl rfl (by decide) (by decide) (by decide) (by decide)⟩

/-- Modelled from the claim wording of C6: a status update, as an
action, has a performer, but the `orders` row (src/src/types.ts) has no
performer column — the change payload delivered to the client carries
only the row images and therefore omits the performer. -/
structure StatusUpdateAction where
  performer : String
  order_id : String
  old_status : OrderStatus
  new_status : OrderStatus
  client_id : Option String
deriving DecidableEq, Repr

/-- The realtime payload a status update action produces: an UPDATE
event with the before and after row images; the performer is not part
of either image. -/
def pushPayloadOfAction (a : StatusUpdateAction) : OrderChangePayload :=
  { eventType := PgEventType.UPDATE,
    oldRow := { id := some a.order_id, status := some a.old_status,
                client_id := a.client_id },
    newRow := { id := some a.order_id, status := some a.new_status,
                client_id := a.client_id } }

/-- C6 counterexample: the claim extends the self-actor skip to status
changes, but the orders handler (App.tsx lines 771-797) has no performer
check — a status update performed by the viewer themself still
synthesizes a notification for the viewer when the map held the old
status. -/
theorem c6_counterexample :
    ({ performer := sampleStaff.id, order_id := "o-5",
       old_status := OrderStatus.not_started,
       new_status := OrderStatus.in_progress,
       client_id := none } : StatusUpdateAction).performer = sampleStaff.id ∧
    (ordersChannelHandler sampleStaff [] [("o-5", OrderStatus.not_started)]
      (pushPayloadOfAction
        { performer := sampleStaff.id, order_id := "o-5",
          old_status := OrderStatus.not_started,
          new_status := OrderStatus.in_progress,
          client_id := none })).2.length = 1 := by
  decide

/-- C6 (amended): for new-comment and new-file events, an event whose
actor (`author_id` / `uploaded_by`) is the viewer themself never
synthesizes a notification, on either the push or the pull path.
Status-change events carry no performer in their payloads and receive
no self-actor skip (see the counterexample). -/
theorem c6_self_actor_skip (profile : Profile) (profiles : List Profile)
    (ordersList : List Order) (kc kf pc pf : List String) (sc sf : String)
    (row : CommentRowImage) (frow : FileRowImage)
    (item : CommentPullRow) (fitem : FilePullRow)
    (h1 : row.author_id = some profile.id)
    (h2 : frow.uploaded_by = some profile.id)
    (h3 : item.author_id = some profile.id)
    (h4 : fitem.uploaded_by = some profile.id) :
    (commentsChannelHandler profile profiles ordersList kc row).2 = [] ∧
    (filesChannelHandler profile ordersList kf frow).2 = [] ∧
    (syncCommentsStep profile ordersList (pc, sc) item).2 = [] ∧
    (syncFilesStep profile ordersList (pf, sf) fitem).2 = [] := by
  refine ⟨?_, ?_, ?_, ?_⟩
  · cases hroid : row.order_id with
    | none => simp [commentsChannelHandler, hroid]
    | some oid =>
      cases hrid : row.id with
      | none => simp [commentsChannelHandler, hroid, hrid]
      | some cid =>
        by_cases hk : cid ∈ kc
        · simp [commentsChannelHandler, hroid, hrid, hk]
        · simp [commentsChannelHandler, hroid, hrid, hk, h1]
  · cases hroid : frow.order_id with
    | none => simp [filesChannelHandler, hroid]
    | some oid =>
      cases hrid : frow.id with
      | none => simp [filesChannelHandler, hroid, hrid]
      | some fid =>
        by_cases hk : fid ∈ kf
        · simp [filesChannelHandler, hroid, hrid, hk]
        · simp [filesChannelHandler, hroid, hrid, hk, h2]
  · by_cases hk : item.id ∈ pc
    · simp [syncCommentsStep, hk]
    · simp [syncCommentsStep, hk, h3]
  · by_cases hk : fitem.id ∈ pf
    · simp [syncFilesStep, hk]
    · simp [syncFilesStep, hk, h4]

/-- C6 amended witness: self-authored comment and self-uploaded file
delivered via both paths to the staff viewer. -/
theorem c6_self_actor_skip_witness :
    (({ id := some "c-4", order_id := some "o-6",
        author_id := some "staff-1" } : CommentRowImage).author_id = some sampleStaff.id ∧
     ({ id := some "f-4", order_id := some "o-6", uploaded_by := some "staff-1",
        file_name := some "a.txt" } : FileRowImage).uploaded_by = some sampleStaff.id ∧
     ({ id := "c-5", order_id := "o-6", author_id := some "staff-1",
        created_at := "t" } : CommentPullRow).author_id = some sampleStaff.id ∧
     ({ id := "f-5", order_id := "o-6", uploaded_by := some "staff-1",
        file_name := some "b.txt", created_at := "t" } : FilePullRow).uploaded_by =
       some sampleStaff.id) ∧
    ((commentsChannelHandler sampleStaff sampleProfiles [] []
        { id := some "c-4", order_id := some "o-6", author_id := some "staff-1" }).2 = [] ∧
     (filesChannelHandler sampleStaff [] []
        { id := some "f-4", order_id := some "o-6", uploaded_by := some "staff-1",
          file_name := some "a.txt" }).2 = [] ∧
     (syncCommentsStep sampleStaff [] ([], "")
        { id := "c-5", order_id := "o-6", author_id := some "staff-1",
          created_at := "t" }).2 = [] ∧
     (syncFilesStep sampleStaff [] ([], "")
        { id := "f-5", order_id := "o-6", uploaded_by := some "staff-1",
          file_name := some "b.txt", created_at := "t" }).2 = []) :=
  ⟨by decide,
   c6_self_actor_skip sampleStaff sampleProfiles [] [] [] [] [] "" ""
     { id := some "c-4", order_id := some "o-6", author_id := some "staff-1" }
     { id := some "f-4", order_id := some "o-6", uploaded_by := some "staff-1",
       file_name := some "a.txt" }
     { id := "c-5", order_id := "o-6", author_id := some "staff-1", created_at := "t" }
     { id := "f-5", order_id := "o-6", uploaded_by := some "staff-1",
       file_name := some "b.txt", created_at := "t" }
     rfl rfl rfl rfl⟩

/-! ## Deliveries of comment and file events via either source (C1)

A session interleaves realtime push callbacks and periodic pull rows in
arbitrary arrival order; both feed the same known-id sets.  A delivery
run processes a list of deliveries against the session state and
records, per delivery, the notification calls it issued. -/

/-- A delivery of one comment event, via the push channel or the pull
sync. -/
inductive CommentDelivery
  | push (row : CommentRowImage)
  | pull (row : CommentPullRow)
deriving DecidableEq, Repr

/-- The comment id a delivery carries. -/
def commentDeliveryId : CommentDelivery → Option String
  | .push row => row.id
  | .pull row => some row.id

/-- The session state the comment deliveries act on:
`knownCommentIdsRef` and `lastCommentSeenAtRef`. -/
structure CommentSyncState where
  knownCommentIds : List String
  lastCommentSeenAt : String
deriving DecidableEq, Repr

/-- Process one comment delivery through the corresponding handler. -/
def commentDeliveryStep (profile : Profile) (profiles : List Profile)
    (ordersList : List Order) (st : CommentSyncState) :
    CommentDelivery → CommentSyncState × List NotifCall
  | .push row =>
    let r := commentsChannelHandler profile profiles ordersList st.knownCommentIds row
    ({ st with knownCommentIds := r.1 }, r.2)
  | .pull item =>
    let r := syncCommentsStep profile ordersList
      (st.knownCommentIds, st.lastCommentSeenAt) item
    ({ knownCommentIds := r.1.1, lastCommentSeenAt := r.1.2 }, r.2)

/-- Process a list of comment deliveries, tracing the notification
calls of each delivery. -/
def commentDeliveryRun (profile : Profile) (profiles : List Profile)
    (ordersList : List Order) :
    CommentSyncState → List CommentDelivery →
      CommentSyncState × List (CommentDelivery × List NotifCall)
  | st, [] => (st, [])
  | st, d :: ds =>
    let s := commentDeliveryStep profile profiles ordersList st d
    let r := commentDeliveryRun profile profiles ordersList s.1 ds
    (r.1, (d, s.2) :: r.2)

/-- A delivery of one file event, via the push channel or the pull
sync. -/
inductive FileDelivery
  | push (row : FileRowImage)
  | pull (row : FilePullRow)
deriving DecidableEq, Repr

/-- The file id a delivery carries. -/
def fileDeliveryId : FileDelivery → Option String
  | .push row => row.id
  | .pull row => some row.id

/-- The session state the file deliveries act on: `knownFileIdsRef` and
`lastFileSeenAtRef`. -/
structure FileSyncState where
  knownFileIds : List String
  lastFileSeenAt : String
deriving DecidableEq, Repr

/-- Process one file delivery through the corresponding handler. -/
def fileDeliveryStep (profile : Profile) (ordersList : List Order)
    (st : FileSyncState) : FileDelivery → FileSyncState × List NotifCall
  | .push row =>
    let r := filesChannelHandler profile ordersList st.knownFileIds row
    ({ st with knownFileIds := r.1 }, r.2)
  | .pull item =>
    let r := syncFilesStep profile ordersList (st.knownFileIds, st.lastFileSeenAt) item
    ({ knownFileIds := r.1.1, lastFileSeenAt := r.1.2 }, r.2)

/-- Process a list of file deliveries, tracing the notification calls
of each delivery. -/
def fileDeliveryRun (profile : Profile) (ordersList : List Order) :
    FileSyncState → List FileDelivery →
      FileSyncState × List (FileDelivery × List NotifCall)
  | st, [] => (st, [])
  | st, d :: ds =>
    let s := fileDeliveryStep profile ordersList st d
    let r := fileDeliveryRun profile ordersList s.1 ds
    (r.1, (d, s.2) :: r.2)

/-- Total number of notification calls issued by the deliveries of the
event id `eid` in a trace. -/
def notifCountFor {δ : Type} (deliveryId : δ → Option String) (eid : String)
    (trace : List (δ × List NotifCall)) : Nat :=
  (trace.map (fun p => if deliveryId p.1 = some eid then p.2.length else 0)).sum

/-! ### Per-step dedup lemmas (comments) -/

theorem commentsChannelHandler_notes_le_one (P : Profile) (PS : List Profile)
    (OL : List Order) (kc : List String) (row : CommentRowImage) :
    (commentsChannelHandler P PS OL kc row).2.length ≤ 1 := by
  unfold commentsChannelHandler
  repeat' split
  all_goals simp

theorem commentsChannelHandler_known_mono (P : Profile) (PS : List Profile)
    (OL : List Order) (kc : List String) (row : CommentRowImage) (x : String)
    (hx : x ∈ kc) : x ∈ (commentsChannelHandler P PS OL kc row).1 := by
  unfold commentsChannelHandler
  repeat' split
  all_goals simp_all

theorem commentsChannelHandler_skip (P : Profile) (PS : List Profile)
    (OL : List Order) (kc : List String) (row : CommentRowImage) (cid : String)
    (hid : row.id = some cid) (hk : cid ∈ kc) :
    (commentsChannelHandler P PS OL kc row).2 = [] := by
  unfold commentsChannelHandler
  cases hroid : row.order_id with
  | none => simp [hroid]
  | some oid => simp [hroid, hid, hk]

theorem commentsChannelHandler_records (P : Profile) (PS : List Profile)
    (OL : List Order) (kc : List String) (row : CommentRowImage) (cid : String)
    (hid : row.id = some cid)
    (hne : (commentsChannelHandler P PS OL kc row).2 ≠ []) :
    cid ∈ (commentsChannelHandler P PS OL kc row).1 := by
  cases hroid : row.order_id with
  | none =>
    exact absurd (by simp [commentsChannelHandler, hroid]) hne
  | some oid =>
    by_cases hk : cid ∈ kc
    · exact commentsChannelHandler_known_mono P PS OL kc row cid hk
    · unfold commentsChannelHandler
      simp only [hroid, hid]
      repeat' split
      all_goals try simp
      all_goals assumption

theorem syncCommentsStep_notes_le_one (P : Profile) (OL : List Order)
    (st : List String × String) (item : CommentPullRow) :
    (syncCommentsStep P OL st item).2.length ≤ 1 := by
  unfold syncCommentsStep
  repeat' split
  all_goals simp

theorem syncCommentsStep_known_mono (P : Profile) (OL : List Order)
    (st : List String × String) (item : CommentPullRow) (x : String)
    (hx : x ∈ st.1) : x ∈ (syncCommentsStep P OL st item).1.1 := by
  unfold syncCommentsStep
  repeat' split
  all_goals simp_all

theorem syncCommentsStep_skip (P : Profile) (OL : List Order)
    (st : List String × String) (item : CommentPullRow)
    (hk : item.id ∈ st.1) : (syncCommentsStep P OL st item).2 = [] := by
  simp [syncCommentsStep, hk]

theorem syncCommentsStep_records (P : Profile) (OL : List Order)
    (st : List String × String) (item : CommentPullRow) :
    item.id ∈ (syncCommentsStep P OL st item).1.1 := by
  unfold syncCommentsStep
  repeat' split
  all_goals simp_all

/-! ### Per-step dedup lemmas (files) -/

theorem filesChannelHandler_notes_le_one (P : Profile) (OL : List Order)
    (kf : List String) (row : FileRowImage) :
    (filesChannelHandler P OL kf row).2.length ≤ 1 := by
  unfold filesChannelHandler
  repeat' split
  all_goals simp

theorem filesChannelHandler_known_mono (P : Profile) (OL : List Order)
    (kf : List String) (row : FileRowImage) (x : String) (hx : x ∈ kf) :
    x ∈ (filesChannelHandler P OL kf row).1 := by
  unfold filesChannelHandler
  repeat' split
  all_goals simp_all

theorem filesChannelHandler_skip (P : Profile) (OL : List Order)
    (kf : List String) (row : FileRowImage) (fid : String)
    (hid : row.id = some fid) (hk : fid ∈ kf) :
    (filesChannelHandler P OL kf row).2 = [] := by
  unfold filesChannelHandler
  cases hroid : row.order_id with
  | none => simp [hroid]
  | some oid => simp [hroid, hid, hk]

theorem filesChannelHandler_records (P : Profile) (OL : List Order)
    (kf : List String) (row : FileRowImage) (fid : String)
    (hid : row.id = some fid)
    (hne : (filesChannelHandler P OL kf row).2 ≠ []) :
    fid ∈ (filesChannelHandler P OL kf row).1 := by
  cases hroid : row.order_id with
  | none =>
    exact absurd (by simp [filesChannelHandler, hroid]) hne
  | some oid =>
    by_cases hk : fid ∈ kf
    · exact filesChannelHandler_known_mono P OL kf row fid hk
    · unfold filesChannelHandler
      simp only [hroid, hid]
      repeat' split
      all_goals try simp
      all_goals assumption

theorem syncFilesStep_notes_le_one (P : Profile) (OL : List Order)
    (st : List String × String) (item : FilePullRow) :
    (syncFilesStep P OL st item).2.length ≤ 1 := by
  unfold syncFilesStep
  repeat' split
  all_goals simp

theorem syncFilesStep_known_mono (P : Profile) (OL : List Order)
    (st : List String × String) (item : FilePullRow) (x : String)
    (hx : x ∈ st.1) : x ∈ (syncFilesStep P OL st item).1.1 := by
  unfold syncFilesStep
  repeat' split
  all_goals simp_all

theorem syncFilesStep_skip (P : Profile) (OL : List Order)
    (st : List String × String) (item : FilePullRow)
    (hk : item.id ∈ st.1) : (syncFilesStep P OL st item).2 = [] := by
  simp [syncFilesStep, hk]

theorem syncFilesStep_records (P : Profile) (OL : List Order)
    (st : List String × String) (item : FilePullRow) :
    item.id ∈ (syncFilesStep P OL st item).1.1 := by
  unfold syncFilesStep
  repeat' split
  all_goals simp_all

/-! ### Delivery-level dedup lemmas and the C1 theorem -/

theorem commentDeliveryStep_notes_le_one (P : Profile) (PS : List Profile)
    (OL : List Order) (st : CommentSyncState) (d : CommentDelivery) :
    (commentDeliveryStep P PS OL st d).2.length ≤ 1 := by
  cases d with
  | push row => exact commentsChannelHandler_notes_le_one P PS OL st.knownCommentIds row
  | pull item => exact syncCommentsStep_notes_le_one P OL _ item

theorem commentDeliveryStep_known_mono (P : Profile) (PS : List Profile)
    (OL : List Order) (st : CommentSyncState) (d : CommentDelivery) (x : String)
    (hx : x ∈ st.knownCommentIds) :
    x ∈ (commentDeliveryStep P PS OL st d).1.knownCommentIds := by
  cases d with
  | push row => exact commentsChannelHandler_known_mono P PS OL st.knownCommentIds row x hx
  | pull item => exact syncCommentsStep_known_mono P OL _ item x hx

theorem commentDeliveryStep_skip (P : Profile) (PS : List Profile)
    (OL : List Order) (st : CommentSyncState) (d : CommentDelivery) (eid : String)
    (hd : commentDeliveryId d = some eid) (hk : eid ∈ st.knownCommentIds) :
    (commentDeliveryStep P PS OL st d).2 = [] := by
  cases d with
  | push row => exact commentsChannelHandler_skip P PS OL st.knownCommentIds row eid hd hk
  | pull item =>
    have hide : item.id = eid := by simpa [commentDeliveryId] using hd
    exact syncCommentsStep_skip P OL _ item (by simpa [hide] using hk)

theorem commentDeliveryStep_records (P : Profile) (PS : List Profile)
    (OL : List Order) (st : CommentSyncState) (d : CommentDelivery) (eid : String)
    (hd : commentDeliveryId d = some eid)
    (hne : (commentDeliveryStep P PS OL st d).2 ≠ []) :
    eid ∈ (commentDeliveryStep P PS OL st d).1.knownCommentIds := by
  cases d with
  | push row => exact commentsChannelHandler_records P PS OL st.knownCommentIds row eid hd hne
  | pull item =>
    have hide : item.id = eid := by simpa [commentDeliveryId] using hd
    simpa [hide] using syncCommentsStep_records P OL
      (st.knownCommentIds, st.lastCommentSeenAt) item

theorem fileDeliveryStep_notes_le_one (P : Profile) (OL : List Order)
    (st : FileSyncState) (d : FileDelivery) :
    (fileDeliveryStep P OL st d).2.length ≤ 1 := by
  cases d with
  | push row => exact filesChannelHandler_notes_le_one P OL st.knownFileIds row
  | pull item => exact syncFilesStep_notes_le_one P OL _ item

theorem fileDeliveryStep_known_mono (P : Profile) (OL : List Order)
    (st : FileSyncState) (d : FileDelivery) (x : String)
    (hx : x ∈ st.knownFileIds) :
    x ∈ (fileDeliveryStep P OL st d).1.knownFileIds := by
  cases d with
  | push row => exact filesChannelHandler_known_mono P OL st.knownFileIds row x hx
  | pull item => exact syncFilesStep_known_mono P OL _ item x hx

theorem fileDeliveryStep_skip (P : Profile) (OL : List Order)
    (st : FileSyncState) (d : FileDelivery) (eid : String)
    (hd : fileDeliveryId d = some eid) (hk : eid ∈ st.knownFileIds) :
    (fileDeliveryStep P OL st d).2 = [] := by
  cases d with
  | push row => exact filesChannelHandler_skip P OL st.knownFileIds row eid hd hk
  | pull item =>
    have hide : item.id = eid := by simpa [fileDeliveryId] using hd
    exact syncFilesStep_skip P OL _ item (by simpa [hide] using hk)

theorem fileDeliveryStep_records (P : Profile) (OL : List Order)
    (st : FileSyncState) (d : FileDelivery) (eid : String)
    (hd : fileDeliveryId d = some eid)
    (hne : (fileDeliveryStep P OL st d).2 ≠ []) :
    eid ∈ (fileDeliveryStep P OL st d).1.knownFileIds := by
  cases d with
  | push row => exact filesChannelHandler_records P OL st.knownFileIds row eid hd hne
  | pull item =>
    have hide : item.id = eid := by simpa [fileDeliveryId] using hd
    simpa [hide] using syncFilesStep_records P OL
      (st.knownFileIds, st.lastFileSeenAt) item

theorem commentRun_count_le_one (P : Profile) (PS : List Profile)
    (OL : List Order) (eid : String) (ds : List CommentDelivery) :
    ∀ st : CommentSyncState,
      notifCountFor commentDeliveryId eid (commentDeliveryRun P PS OL st ds).2 ≤ 1 ∧
      (eid ∈ st.knownCommentIds →
        notifCountFor commentDeliveryId eid (commentDeliveryRun P PS OL st ds).2 = 0) := by
  induction ds with
  | nil =>
    intro st
    simp [commentDeliveryRun, notifCountFor]
  | cons d ds ih =>
    intro st
    have hrun : (commentDeliveryRun P PS OL st (d :: ds)).2 =
        (d, (commentDeliveryStep P PS OL st d).2) ::
          (commentDeliveryRun P PS OL (commentDeliveryStep P PS OL st d).1 ds).2 := rfl
    rw [hrun]
    have hcount : ∀ rest : List (CommentDelivery × List NotifCall),
        notifCountFor commentDeliveryId eid
          ((d, (commentDeliveryStep P PS OL st d).2) :: rest) =
        (if commentDeliveryId d = some eid
          then (commentDeliveryStep P PS OL st d).2.length else 0) +
          notifCountFor commentDeliveryId eid rest := by
      intro rest
      simp [notifCountFor]
    rw [hcount]
    by_cases hd : commentDeliveryId d = some eid
    · rw [if_pos hd]
      constructor
      · by_cases hk : eid ∈ st.knownCommentIds
        · rw [commentDeliveryStep_skip P PS OL st d eid hd hk]
          have h2 := commentDeliveryStep_known_mono P PS OL st d eid hk
          simp [(ih _).2 h2]
        · by_cases hnil : (commentDeliveryStep P PS OL st d).2 = []
          · rw [hnil]
            simpa using (ih _).1
          · have h2 := commentDeliveryStep_records P PS OL st d eid hd hnil
            have h3 := (ih _).2 h2
            have h4 := commentDeliveryStep_notes_le_one P PS OL st d
            omega
      · intro hk
        rw [commentDeliveryStep_skip P PS OL st d eid hd hk]
        have h2 := commentDeliveryStep_known_mono P PS OL st d eid hk
        simp [(ih _).2 h2]
    · rw [if_neg hd]
      constructor
      · simpa using (ih _).1
      · intro hk
        have h2 := commentDeliveryStep_known_mono P PS OL st d eid hk
        simp [(ih _).2 h2]

theorem fileRun_count_le_one (P : Profile) (OL : List Order) (eid : String)
    (ds : List FileDelivery) :
    ∀ st : FileSyncState,
      notifCountFor fileDeliveryId eid (fileDeliveryRun P OL st ds).2 ≤ 1 ∧
      (eid ∈ st.knownFileIds →
        notifCountFor fileDeliveryId eid (fileDeliveryRun P OL st ds).2 = 0) := by
  induction ds with
  | nil =>
    intro st
    simp [fileDeliveryRun, notifCountFor]
  | cons d ds ih =>
    intro st
    have hrun : (fileDeliveryRun P OL st (d :: ds)).2 =
        (d, (fileDeliveryStep P OL st d).2) ::
          (fileDeliveryRun P OL (fileDeliveryStep P OL st d).1 ds).2 := rfl
    rw [hrun]
    have hcount : ∀ rest : List (FileDelivery × List NotifCall),
        notifCountFor fileDeliveryId eid
          ((d, (fileDeliveryStep P OL st d).2) :: rest) =
        (if fileDeliveryId d = some eid
          then (fileDeliveryStep P OL st d).2.length else 0) +
          notifCountFor fileDeliveryId eid rest := by
      intro rest
      simp [notifCountFor]
    rw [hcount]
    by_cases hd : fileDeliveryId d = some eid
    · rw [if_pos hd]
      constructor
      · by_cases hk : eid ∈ st.knownFileIds
        · rw [fileDeliveryStep_skip P OL st d eid hd hk]
          have h2 := fileDeliveryStep_known_mono P OL st d eid hk
          simp [(ih _).2 h2]
        · by_cases hnil : (fileDeliveryStep P OL st d).2 = []
          · rw [hnil]
            simpa using (ih _).1
          · have h2 := fileDeliveryStep_records P OL st d eid hd hnil
            have h3 := (ih _).2 h2
            have h4 := fileDeliveryStep_notes_le_one P OL st d
            omega
      · intro hk
        rw [fileDeliveryStep_skip P OL st d eid hd hk]
        have h2 := fileDeliveryStep_known_mono P OL st d eid hk
        simp [(ih _).2 h2]
    · rw [if_neg hd]
      constructor
      · simpa using (ih _).1
      · intro hk
        have h2 := fileDeliveryStep_known_mono P OL st d eid hk
        simp [(ih _).2 h2]

/-- C1: across any interleaving of push and pull deliveries within a
session, at most one notification is ever synthesized per comment id
and per file id — however many times and through whichever combination
of sources that id is delivered. -/
theorem c1_dedup_at_most_once (profile : Profile) (profiles : List Profile)
    (ordersList : List Order) (cstate : CommentSyncState)
    (fstate : FileSyncState) (cds : List CommentDelivery)
    (fds : List FileDelivery) (cid fid : String) :
    notifCountFor commentDeliveryId cid
      (commentDeliveryRun profile profiles ordersList cstate cds).2 ≤ 1 ∧
    notifCountFor fileDeliveryId fid
      (fileDeliveryRun profile ordersList fstate fds).2 ≤ 1 :=
  ⟨(commentRun_count_le_one profile profiles ordersList cid cds cstate).1,
   (fileRun_count_le_one profile ordersList fid fds fstate).1⟩

/-! ## Deliveries of order status observations via either source (C2) -/

/-- A delivery of one order status observation, via the push channel or
the pull sync. -/
inductive OrderDelivery
  | push (payload : OrderChangePayload)
  | pull (row : OrderPullRow)
deriving DecidableEq, Repr

/-- Process one order delivery through the corresponding handler. -/
def orderDeliveryStep (profile : Profile) (ordersList : List Order)
    (m : List (String × OrderStatus)) :
    OrderDelivery → List (String × OrderStatus) × List NotifCall
  | .push payload => ordersChannelHandler profile ordersList m payload
  | .pull row => syncOrdersStep profile ordersList m row

/-- Process a list of order deliveries against the status map,
collecting every notification call in order. -/
def orderDeliveryRun (profile : Profile) (ordersList : List Order) :
    List (String × OrderStatus) → List OrderDelivery →
      List (String × OrderStatus) × List NotifCall
  | m, [] => (m, [])
  | m, d :: ds =>
    let s := orderDeliveryStep profile ordersList m d
    let r := orderDeliveryRun profile ordersList s.1 ds
    (r.1, s.2 ++ r.2)

/-- A delivery observes order `oid` with status `s2` and owner `c`:
an INSERT or UPDATE push payload whose new row reports exactly that, or
a pull row reporting exactly that. -/
def observesTransition (oid : String) (s2 : OrderStatus) (c : Option String) :
    OrderDelivery → Bool
  | .push p =>
    (decide (p.eventType = PgEventType.UPDATE) ||
     decide (p.eventType = PgEventType.INSERT)) &&
    decide (p.newRow.id = some oid) && decide (p.newRow.status = some s2) &&
    decide (p.newRow.client_id = c)
  | .pull r =>
    decide (r.id = oid) && decide (r.status = s2) && decide (r.client_id = c)

theorem orderStep_observe_transition (profile : Profile)
    (ordersList : List Order) (m : List (String × OrderStatus))
    (d : OrderDelivery) (oid : String) (s1 s2 : OrderStatus) (c : Option String)
    (hobs : observesTransition oid s2 c d = true)
    (hprior : statusMapGet m oid = some s1) (hne : s1 ≠ s2) :
    (orderDeliveryStep profile ordersList m d).2.length =
      (if isClientOwn profile c then 1 else 0) ∧
    statusMapGet (orderDeliveryStep profile ordersList m d).1 oid = some s2 := by
  cases d with
  | push p =>
    simp only [observesTransition, Bool.and_eq_true, Bool.or_eq_true,
      decide_eq_true_eq] at hobs
    obtain ⟨⟨⟨hev, hid⟩, hst⟩, hcid⟩ := hobs
    have h := ordersChannelHandler_transition profile ordersList m p oid s1 s2
      hev hid hst hprior hne
    constructor
    · show (ordersChannelHandler profile ordersList m p).2.length = _
      rw [h, hcid]
      by_cases hown : isClientOwn profile c = true <;> simp [hown]
    · show statusMapGet (ordersChannelHandler profile ordersList m p).1 oid = some s2
      rw [h]
      exact statusMapGet_set_self m oid s2
  | pull r =>
    simp only [observesTransition, Bool.and_eq_true, decide_eq_true_eq] at hobs
    obtain ⟨⟨hid, hst⟩, hcid⟩ := hobs
    have hprior2 : statusMapGet m r.id = some s1 := by rw [hid]; exact hprior
    have hne2 : s1 ≠ r.status := by rw [hst]; exact hne
    have h := syncOrdersStep_transition profile ordersList m r s1 hprior2 hne2
    constructor
    · show (syncOrdersStep profile ordersList m r).2.length = _
      rw [h, hcid]
      by_cases hown : isClientOwn profile c = true <;> simp [hown]
    · show statusMapGet (syncOrdersStep profile ordersList m r).1 oid = some s2
      rw [h]
      show statusMapGet (statusMapSet m r.id r.status) oid = some s2
      rw [hid, hst]
      exact statusMapGet_set_self m oid s2

theorem orderStep_observe_stable (profile : Profile) (ordersList : List Order)
    (m : List (String × OrderStatus)) (d : OrderDelivery) (oid : String)
    (s2 : OrderStatus) (c : Option String)
    (hobs : observesTransition oid s2 c d = true)
    (hprior : statusMapGet m oid = some s2) :
    (orderDeliveryStep profile ordersList m d).2 = [] ∧
    statusMapGet (orderDeliveryStep profile ordersList m d).1 oid = some s2 := by
  cases d with
  | push p =>
    simp only [observesTransition, Bool.and_eq_true, Bool.or_eq_true,
      decide_eq_true_eq] at hobs
    obtain ⟨⟨⟨hev, hid⟩, hst⟩, hcid⟩ := hobs
    have h := ordersChannelHandler_same profile ordersList m p oid s2
      hev hid hst hprior
    constructor
    · show (ordersChannelHandler profile ordersList m p).2 = []
      rw [h]
    · show statusMapGet (ordersChannelHandler profile ordersList m p).1 oid = some s2
      rw [h]
      exact statusMapGet_set_self m oid s2
  | pull r =>
    simp only [observesTransition, Bool.and_eq_true, decide_eq_true_eq] at hobs
    obtain ⟨⟨hid, hst⟩, hcid⟩ := hobs
    have hprior2 : statusMapGet m r.id = some r.status := by
      rw [hid, hst]
      exact hprior
    have h := syncOrdersStep_same profile ordersList m r hprior2
    constructor
    · show (syncOrdersStep profile ordersList m r).2 = []
      rw [h]
    · show statusMapGet (syncOrdersStep profile ordersList m r).1 oid = some s2
      rw [h]
      show statusMapGet (statusMapSet m r.id r.status) oid = some s2
      rw [hid, hst]
      exact statusMapGet_set_self m oid s2

theorem orderRun_stable (profile : Profile) (ordersList : List Order)
    (oid : String) (s2 : OrderStatus) (c : Option String)
    (ds : List OrderDelivery) :
    ∀ m : List (String × OrderStatus),
      ds.all (observesTransition oid s2 c) = true →
      statusMapGet m oid = some s2 →
      (orderDeliveryRun profile ordersList m ds).2 = [] ∧
      statusMapGet (orderDeliveryRun profile ordersList m ds).1 oid = some s2 := by
  induction ds with
  | nil =>
    intro m _ hprior
    exact ⟨rfl, hprior⟩
  | cons d ds ih =>
    intro m hobs hprior
    rw [List.all_cons, Bool.and_eq_true] at hobs
    have hstep := orderStep_observe_stable profile ordersList m d oid s2 c
      hobs.1 hprior
    have hrest := ih (orderDeliveryStep profile ordersList m d).1 hobs.2 hstep.2
    have hrun : orderDeliveryRun profile ordersList m (d :: ds) =
        ((orderDeliveryRun profile ordersList
            (orderDeliveryStep profile ordersList m d).1 ds).1,
         (orderDeliveryStep profile ordersList m d).2 ++
           (orderDeliveryRun profile ordersList
             (orderDeliveryStep profile ordersList m d).1 ds).2) := rfl
    rw [hrun]
    exact ⟨by simp [hstep.1, hrest.1], hrest.2⟩

/-- C2: for an order whose recorded status is `s1`, any nonempty batch
of deliveries all observing the same new status `s2 ≠ s1` (through any
mix of push and pull) synthesizes exactly one status-change
notification when the viewer is eligible and none otherwise, and in
either case the status map ends up holding `s2` for that order. -/
theorem c2_status_transition_once (profile : Profile)
    (ordersList : List Order) (m : List (String × OrderStatus))
    (ds : List OrderDelivery) (oid : String) (s1 s2 : OrderStatus)
    (c : Option String)
    (hprior : statusMapGet m oid = some s1) (hne : s1 ≠ s2)
    (hobs : ds.all (observesTransition oid s2 c) = true)
    (hnonempty : ds ≠ []) :
    (orderDeliveryRun profile ordersList m ds).2.length =
      (if isClientOwn profile c then 1 else 0) ∧
    statusMapGet (orderDeliveryRun profile ordersList m ds).1 oid = some s2 := by
  cases ds with
  | nil => exact absurd rfl hnonempty
  | cons d ds =>
    rw [List.all_cons, Bool.and_eq_true] at hobs
    have hstep := orderStep_observe_transition profile ordersList m d oid s1 s2 c
      hobs.1 hprior hne
    have hrest := orderRun_stable profile ordersList oid s2 c ds
      (orderDeliveryStep profile ordersList m d).1 hobs.2 hstep.2
    have hrun : orderDeliveryRun profile ordersList m (d :: ds) =
        ((orderDeliveryRun profile ordersList
            (orderDeliveryStep profile ordersList m d).1 ds).1,
         (orderDeliveryStep profile ordersList m d).2 ++
           (orderDeliveryRun profile ordersList
             (orderDeliveryStep profile ordersList m d).1 ds).2) := rfl
    rw [hrun]
    constructor
    · simp [hrest.1, hstep.1]
    · exact hrest.2

/-- C2 witness: the same transition of order o-7 from not started to in
progress delivered via push and then again via pull, viewed by the
staff viewer. -/
theorem c2_status_transition_once_witness :
    statusMapGet [("o-7", OrderStatus.not_started)] "o-7" = some OrderStatus.not_started ∧
    OrderStatus.not_started ≠ OrderStatus.in_progress ∧
    ([OrderDelivery.push
        { eventType := PgEventType.UPDATE,
          oldRow := { id := some "o-7", status := some OrderStatus.not_started,
                      client_id := some "client-1" },
          newRow := { id := some "o-7", status := some OrderStatus.in_progress,
                      client_id := some "client-1" } },
      OrderDelivery.pull
        { id := "o-7", status := OrderStatus.in_progress,
          client_id := some "client-1" }].all
      (observesTransition "o-7" OrderStatus.in_progress (some "client-1")) = true) ∧
    ([OrderDelivery.push
        { eventType := PgEventType.UPDATE,
          oldRow := { id := some "o-7", status := some OrderStatus.not_started,
                      client_id := some "client-1" },
          newRow := { id := some "o-7", status := some OrderStatus.in_progress,
                      client_id := some "client-1" } },
      OrderDelivery.pull
        { id := "o-7", status := OrderStatus.in_progress,
          client_id := some "client-1" }] ≠ ([] : List OrderDelivery)) ∧
    ((orderDeliveryRun sampleStaff [] [("o-7", OrderStatus.not_started)]
        [OrderDelivery.push
          { eventType := PgEventType.UPDATE,
            oldRow := { id := some "o-7", status := some OrderStatus.not_started,
                        client_id := some "client-1" },
            newRow := { id := some "o-7", status := some OrderStatus.in_progress,
                        client_id := some "client-1" } },
         OrderDelivery.pull
          { id := "o-7", status := OrderStatus.in_progress,
            client_id := some "client-1" }]).2.length =
      (if isClientOwn sampleStaff (some "client-1") then 1 else 0) ∧
     statusMapGet (orderDeliveryRun sampleStaff [] [("o-7", OrderStatus.not_started)]
        [OrderDelivery.push
          { eventType := PgEventType.UPDATE,
            oldRow := { id := some "o-7", status := some OrderStatus.not_started,
                        client_id := some "client-1" },
            newRow := { id := some "o-7", status := some OrderStatus.in_progress,
                        client_id := some "client-1" } },
         OrderDelivery.pull
          { id := "o-7", status := OrderStatus.in_progress,
            client_id := some "client-1" }]).1 "o-7" = some OrderStatus.in_progress) :=
  ⟨by decide, by decide, by decide, by decide,
   c2_status_transition_once sampleStaff [] [("o-7", OrderStatus.not_started)]
     [OrderDelivery.push
       { eventType := PgEventType.UPDATE,
         oldRow := { id := some "o-7", status := some OrderStatus.not_started,
                     client_id := some "client-1" },
         newRow := { id := some "o-7", status := some OrderStatus.in_progress,
                     client_id := some "client-1" } },
      OrderDelivery.pull
       { id := "o-7", status := OrderStatus.in_progress,
         client_id := some "client-1" }]
     "o-7" OrderStatus.not_started OrderStatus.in_progress (some "client-1")
     (by decide) (by decide) (by decide) (by decide)⟩

/-! ## Opening a notification (C8) -/

/-- In every branch of `openNotification` the inbox update is the same
single-entry read marking. -/
theorem openNotification_notifications (item : AppNotification)
    (fetched : Option Order) (notifications : List AppNotification)
    (orders : List Order) (selectedOrderId : Option String) :
    (openNotification item fetched notifications orders selectedOrderId).notifications =
      notifications.map (fun n => if n.id = item.id then { n with read := true } else n) := by
  unfold openNotification
  repeat' split
  all_goals rfl

/-- C8: `openNotification` marks exactly the opened entry read (every
entry with another id is kept as it was and the length is unchanged);
when the notification references an order absent from the loaded list
it performs exactly one fetch and merges the fetched row without
duplicating any id, after which navigation resolves that order; when
the order is already present it fetches nothing and leaves the list
unchanged; and when the fetch yields nothing the order list is
unchanged, navigation resolves no order, and the entry is still marked
read. -/
theorem c8_open_notification (item : AppNotification)
    (notifications : List AppNotification) (f0 : Option Order)
    (os0 ordersA ordersP ordersM : List Order) (d : Order)
    (sel0 selA selP selM : Option String) (oid : String)
    (hoid : item.order_id = some oid)
    (hmem : item ∈ notifications)
    (hA : ordersA.any (fun o => o.id = oid) = false)
    (hd : d.id = oid)
    (hAnodup : (ordersA.map Order.id).Nodup)
    (hP : ordersP.any (fun o => o.id = oid) = true)
    (hM : ordersM.any (fun o => o.id = oid) = false) :
    (openNotification item f0 notifications os0 sel0).notifications.length =
      notifications.length ∧
    { item with read := true } ∈
      (openNotification item f0 notifications os0 sel0).notifications ∧
    ((notifications.filter (fun n => !(n.id == item.id))).all
      (fun n => (openNotification item f0 notifications os0 sel0).notifications.contains n)
      = true) ∧
    (openNotification item (some d) notifications ordersA selA).fetchCount = 1 ∧
    (openNotification item (some d) notifications ordersA selA).orders = d :: ordersA ∧
    (((openNotification item (some d) notifications ordersA selA).orders.map
        Order.id).Nodup) ∧
    selectedOrder (openNotification item (some d) notifications ordersA selA).orders
      (openNotification item (some d) notifications ordersA selA).selectedOrderId =
      some d ∧
    (openNotification item f0 notifications ordersP selP).fetchCount = 0 ∧
    (openNotification item f0 notifications ordersP selP).orders = ordersP ∧
    (openNotification item none notifications ordersM selM).fetchCount = 1 ∧
    (openNotification item none notifications ordersM selM).orders = ordersM ∧
    selectedOrder (openNotification item none notifications ordersM selM).orders
      (openNotification item none notifications ordersM selM).selectedOrderId = none ∧
    { item with read := true } ∈
      (openNotification item none notifications ordersM selM).notifications := by
  have hmap := openNotification_notifications item f0 notifications os0 sel0
  have hmarkmem : ∀ (g : Option Order) (os : List Order) (sl : Option String),
      { item with read := true } ∈
        (openNotification item g notifications os sl).notifications := by
    intro g os sl
    rw [openNotification_notifications]
    exact List.mem_map.mpr ⟨item, hmem, by simp⟩
  have hAabs : openNotification item (some d) notifications ordersA selA =
      { notifications := notifications.map
          (fun n => if n.id = item.id then { n with read := true } else n),
        orders := d :: ordersA, selectedOrderId := some oid, fetchCount := 1 } := by
    unfold openNotification
    rw [hoid]
    simp [hA, hd]
  have hPres : openNotification item f0 notifications ordersP selP =
      { notifications := notifications.map
          (fun n => if n.id = item.id then { n with read := true } else n),
        orders := ordersP, selectedOrderId := some oid, fetchCount := 0 } := by
    unfold openNotification
    rw [hoid]
    simp [hP]
  have hMiss : openNotification item none notifications ordersM selM =
      { notifications := notifications.map
          (fun n => if n.id = item.id then { n with read := true } else n),
        orders := ordersM, selectedOrderId := some oid, fetchCount := 1 } := by
    unfold openNotification
    rw [hoid]
    simp [hM]
  have hnotinA : ∀ o ∈ ordersA, ¬(o.id = oid) := by
    intro o ho
    have := List.any_eq_false.mp hA o ho
    simpa using this
  have hnotinM : ∀ o ∈ ordersM, ¬(o.id = oid) := by
    intro o ho
    have := List.any_eq_false.mp hM o ho
    simpa using this
  refine ⟨?_, hmarkmem f0 os0 sel0, ?_, ?_, ?_, ?_, ?_, ?_, ?_, ?_, ?_, ?_,
    hmarkmem none ordersM selM⟩
  · rw [hmap]
    exact List.length_map notifications _
  · rw [List.all_eq_true]
    intro n hn
    have hn2 := List.mem_filter.mp hn
    have hne : ¬(n.id = item.id) := by simpa using hn2.2
    rw [hmap]
    have : n ∈ notifications.map
        (fun x => if x.id = item.id then { x with read := true } else x) :=
      List.mem_map.mpr ⟨n, hn2.1, by simp [hne]⟩
    exact List.elem_eq_true_of_mem this
  · rw [hAabs]
  · rw [hAabs]
  · rw [hAabs]
    simp only [List.map_cons]
    exact List.nodup_cons.mpr ⟨by
      rw [hd]
      intro hcontra
      obtain ⟨o, ho, hoe⟩ := List.mem_map.mp hcontra
      exact hnotinA o ho hoe, hAnodup⟩
  · rw [hAabs]
    simp [selectedOrder, hd]
  · rw [hPres]
  · rw [hPres]
  · rw [hMiss]
  · rw [hMiss]
  · rw [hMiss]
    simp only [selectedOrder, Option.some_bind]
    rw [List.find?_eq_none]
    intro o ho
    simpa using hnotinM o ho

/-- C8 witness: opening a notification for order o-8 against an inbox
of one entry, with the three order-list scenarios instantiated. -/
theorem c8_open_notification_witness :
    (({ id := "n-8", title := "T", message := "M", created_at := "t",
        read := false, order_id := some "o-8" } : AppNotification).order_id =
      some "o-8" ∧
     ({ id := "n-8", title := "T", message := "M", created_at := "t",
        read := false, order_id := some "o-8" } : AppNotification) ∈
       [({ id := "n-8", title := "T", message := "M", created_at := "t",
           read := false, order_id := some "o-8" } : AppNotification)] ∧
     ([] : List Order).any (fun o => o.id = "o-8") = false ∧
     ({ id := "o-8", order_code := "ORD-8", status := OrderStatus.not_started,
        client_id := none } : Order).id = "o-8" ∧
     (([] : List Order).map Order.id).Nodup ∧
     [({ id := "o-8", order_code := "ORD-8", status := OrderStatus.not_started,
         client_id := none } : Order)].any (fun o => o.id = "o-8") = true ∧
     ([] : List Order).any (fun o => o.id = "o-8") = false) ∧
    ((openNotification
        { id := "n-8", title := "T", message := "M", created_at := "t",
          read := false, order_id := some "o-8" } none
        [{ id := "n-8", title := "T", message := "M", created_at := "t",
           read := false, order_id := some "o-8" }] [] none).notifications.length = 1 ∧
     (openNotification
        { id := "n-8", title := "T", message := "M", created_at := "t",
          read := false, order_id := some "o-8" }
        (some { id := "o-8", order_code := "ORD-8",
                status := OrderStatus.not_started, client_id := none })
        [{ id := "n-8", title := "T", message := "M", created_at := "t",
           read := false, order_id := some "o-8" }] [] none).fetchCount = 1 ∧
     (openNotification
        { id := "n-8", title := "T", message := "M", created_at := "t",
          read := false, order_id := some "o-8" }
        (some { id := "o-8", order_code := "ORD-8",
                status := OrderStatus.not_started, client_id := none })
        [{ id := "n-8", title := "T", message := "M", created_at := "t",
           read := false, order_id := some "o-8" }] [] none).orders =
       [{ id := "o-8", order_code := "ORD-8", status := OrderStatus.not_started,
          client_id := none }] ∧
     (openNotification
        { id := "n-8", title := "T", message := "M", created_at := "t",
          read := false, order_id := some "o-8" } none
        [{ id := "n-8", title := "T", message := "M", created_at := "t",
           read := false, order_id := some "o-8" }] [] none).orders = [] ∧
     selectedOrder
       (openNotification
         { id := "n-8", title := "T", message := "M", created_at := "t",
           read := false, order_id := some "o-8" } none
         [{ id := "n-8", title := "T", message := "M", created_at := "t",
            read := false, order_id := some "o-8" }] [] none).orders
       (openNotification
         { id := "n-8", title := "T", message := "M", created_at := "t",
           read := false, order_id := some "o-8" } none
         [{ id := "n-8", title := "T", message := "M", created_at := "t",
            read := false, order_id := some "o-8" }] [] none).selectedOrderId = none ∧
     ({ id := "n-8", title := "T", message := "M", created_at := "t",
        read := true, order_id := some "o-8" } : AppNotification) ∈
       (openNotification
         { id := "n-8", title := "T", message := "M", created_at := "t",
           read := false, order_id := some "o-8" } none
         [{ id := "n-8", title := "T", message := "M", created_at := "t",
            read := false, order_id := some "o-8" }] [] none).notifications) := by
  have h := c8_open_notification
    { id := "n-8", title := "T", message := "M", created_at := "t",
      read := false, order_id := some "o-8" }
    [{ id := "n-8", title := "T", message := "M", created_at := "t",
       read := false, order_id := some "o-8" }]
    none [] []
    [{ id := "o-8", order_code := "ORD-8", status := OrderStatus.not_started,
       client_id := none }]
    []
    { id := "o-8", order_code := "ORD-8", status := OrderStatus.not_started,
      client_id := none }
    none none none none "o-8"
    rfl (by decide) (by decide) rfl (by decide) (by decide) (by decide)
  exact ⟨⟨rfl, by decide, by decide, rfl, by decide, by decide, by decide⟩,
    h.1, h.2.2.2.1, h.2.2.2.2.1, h.2.2.2.2.2.2.2.2.2.2.1,
    h.2.2.2.2.2.2.2.2.2.2.2.1, h.2.2.2.2.2.2.2.2.2.2.2.2⟩

end WorkTrack
